import Mathlib

/-!
Shallow embedding of `module-moga-3d.py` (a 3-D MogaNet block: multi-order
depthwise convolutions, gated aggregation, channel-aggregation FFN, and the
top-level residual block), together with theorems checking the repository's
specification against it.

Conventions of the embedding:
* 5-D tensors (batch, channel, depth, height, width) are total functions
  `ℕ → ℕ → ℕ → ℕ → ℕ → α`; the shape is passed separately where an
  operation needs it (padding bounds, pooling, means).  Values outside the
  shape are irrelevant to every theorem below.
* Floating-point values are modelled as exact numbers (`ℚ` where only ring
  operations occur, `ℝ` where `sqrt`/`exp` occur); Python `int()` is exact
  truncation toward zero.
* Fallible Python construction (assert / ZeroDivisionError / IndexError)
  is `Except PyErr`, with checks performed in the source's evaluation order.
-/

namespace Moga

/-- A 5-D tensor (batch, channel, depth, height, width) as a total function. -/
def Tensor (α : Type) : Type := ℕ → ℕ → ℕ → ℕ → ℕ → α

variable {α : Type}

/-- Pointwise addition of two tensors of the same shape. -/
def Tensor.add [Add α] (t u : Tensor α) : Tensor α :=
  fun b c z y x => t b c z y x + u b c z y x

/-- Pointwise (Hadamard) product of two tensors of the same shape. -/
def Tensor.mul [Mul α] (t u : Tensor α) : Tensor α :=
  fun b c z y x => t b c z y x * u b c z y x

/-- Multiplication by a parameter of shape `(1, C, 1, 1, 1)` broadcast over the
batch and spatial dimensions: this is how `ElementScale_3D.forward` and the
`layer_scale_1/2 *` products in `MogaBlock_3D.forward` act. -/
def chanScale [Mul α] (s : ℕ → α) (t : Tensor α) : Tensor α :=
  fun b c z y x => s c * t b c z y x

/-- Zero-padded bounded read used by convolution: positions outside the
spatial shape `(D, H, W)` read as `0`. -/
def access [Zero α] (D H W : ℕ) (t : Tensor α) (b c : ℕ) (z y x : ℤ) : α :=
  if 0 ≤ z ∧ z < (D : ℤ) ∧ 0 ≤ y ∧ y < (H : ℤ) ∧ 0 ≤ x ∧ x < (W : ℤ) then
    t b c z.toNat y.toNat x.toNat
  else 0

/-- Configuration and learned state of one `nn.Conv3d` with a cubic kernel and
stride 1 (every convolution in this module has stride 1). -/
structure Conv3dCfg (α : Type) where
  inC : ℕ
  outC : ℕ
  k : ℕ
  pad : ℕ
  dil : ℕ
  groups : ℕ
  weight : ℕ → ℕ → ℕ → ℕ → ℕ → α   -- weight o ic kz ky kx
  bias : ℕ → α

/-- Grouped, dilated, zero-padded 3-D convolution with stride 1: output channel
`o` belongs to group `o / (outC / groups)` and reads input channels
`g * (inC / groups) + ic`.  Input spatial position for output position `z` and
kernel tap `kz` is `z - pad + kz * dil`. -/
def conv3dApply [CommRing α] (cfg : Conv3dCfg α) (D H W : ℕ) (t : Tensor α) :
    Tensor α :=
  fun b o z y x =>
    cfg.bias o +
      ∑ ic ∈ Finset.range (cfg.inC / cfg.groups),
        ∑ kz ∈ Finset.range cfg.k, ∑ ky ∈ Finset.range cfg.k,
          ∑ kx ∈ Finset.range cfg.k,
            cfg.weight o ic kz ky kx *
              access D H W t b (o / (cfg.outC / cfg.groups) * (cfg.inC / cfg.groups) + ic)
                ((z : ℤ) + (kz : ℤ) * cfg.dil - cfg.pad)
                ((y : ℤ) + (ky : ℤ) * cfg.dil - cfg.pad)
                ((x : ℤ) + (kx : ℤ) * cfg.dil - cfg.pad)

/-- PyTorch output size of one spatial dimension of a stride-`s` convolution:
`floor((n + 2 pad - dil (k - 1) - 1) / s) + 1`. -/
def convOutDim (n k pad dil s : ℕ) : ℕ :=
  (n + 2 * pad - (dil * (k - 1) + 1)) / s + 1

/-- Python `int()` applied to an exact rational: truncation toward zero. -/
def pyInt (q : ℚ) : ℤ := q.num.tdiv (q.den : ℤ)

/-- The three channel sub-range sizes computed at
`MultiOrderDWConv_3D.__init__` lines 182-185:
`split_ratio = [i / sum(channel_split) for i in channel_split]`,
`embed_dims_1 = int(split_ratio[1] * embed_dims)`,
`embed_dims_2 = int(split_ratio[2] * embed_dims)`,
`embed_dims_0 = embed_dims - embed_dims_1 - embed_dims_2`.
Returned as `(embed_dims_0, embed_dims_1, embed_dims_2)`. -/
def splitSizes (channel_split : List ℤ) (embed_dims : ℕ) : ℤ × ℤ × ℤ :=
  let s : ℤ := channel_split.sum
  let r1 : ℚ := (channel_split.getD 1 0 : ℚ) / (s : ℚ)
  let r2 : ℚ := (channel_split.getD 2 0 : ℚ) / (s : ℚ)
  let e1 := pyInt (r1 * embed_dims)
  let e2 := pyInt (r2 * embed_dims)
  ((embed_dims : ℤ) - e1 - e2, e1, e2)

/-- The Python exceptions that `MultiOrderDWConv_3D.__init__` and the two
factory functions can raise. -/
inductive PyErr
  | zeroDivision
  | indexError
  | assertionError
  deriving DecidableEq

/-- The body of `MultiOrderDWConv_3D.__init__` up to (and including) its three
assertions, with the failure modes in the source's evaluation order:
1. the list comprehension divides by `sum(channel_split)` once per element, so
   a `ZeroDivisionError` is raised iff the list is nonempty and sums to 0;
2. `split_ratio[1]` / `split_ratio[2]` raise `IndexError` when the list has
   fewer than 3 elements;
3. only then run `assert len(dw_dilation) == len(channel_split) == 3`,
   `assert 1 <= min(dw_dilation) and max(dw_dilation) <= 3`, and
   `assert embed_dims % sum(channel_split) == 0`.
On success it returns the computed channel sub-range sizes. -/
def multiOrderDWConvMake (embed_dims : ℕ) (dw_dilation channel_split : List ℤ) :
    Except PyErr (ℤ × ℤ × ℤ) :=
  if channel_split ≠ [] ∧ channel_split.sum = 0 then .error .zeroDivision
  else if channel_split.length < 3 then .error .indexError
  else
    let sz := splitSizes channel_split embed_dims
    if ¬ (dw_dilation.length = channel_split.length ∧ channel_split.length = 3) then
      .error .assertionError
    else if ¬ (∀ d ∈ dw_dilation, 1 ≤ d ∧ d ≤ 3) then .error .assertionError
    else if ¬ ((channel_split.sum : ℤ) ∣ (embed_dims : ℤ)) then .error .assertionError
    else .ok sz

/-- The layer kinds `build_act_layer` can return. -/
inductive ActLayer
  | identity
  | gelu
  | relu
  | silu
  deriving DecidableEq

/-- `build_act_layer` (lines 11-21): identity for `None`, assert the selector
is one of `GELU`/`ReLU`/`SiLU`, then dispatch. -/
def build_act_layer (act_type : Option String) : Except PyErr ActLayer :=
  match act_type with
  | none => .ok .identity
  | some s =>
    if ¬ (s = "GELU" ∨ s = "ReLU" ∨ s = "SiLU") then .error .assertionError
    else if s = "SiLU" then .ok .silu
    else if s = "ReLU" then .ok .relu
    else .ok .gelu

/-- The two data formats the custom `LayerNorm` accepts. -/
inductive DataFormat
  | channelsLast
  | channelsFirst
  deriving DecidableEq

/-- The custom `LayerNorm` module (lines 36-57): learned per-position weight
and bias, an epsilon, and the stored data format. -/
structure LayerNorm (α : Type) where
  weight : ℕ → α
  bias : ℕ → α
  eps : α
  data_format : DataFormat
  normalized_shape : ℕ

/-- `LayerNorm.__init__`: `weight = torch.ones(...)`, `bias = torch.zeros(...)`.
In the source, `data_format` is a keyword argument defaulting to
`"channels_last"`; callers that omit it (as `build_norm_layer` does) get
channels-last mode. -/
def LayerNorm.make [One α] [Zero α] (normalized_shape : ℕ) (eps : α)
    (data_format : DataFormat) : LayerNorm α :=
  ⟨fun _ => 1, fun _ => 0, eps, data_format, normalized_shape⟩

/-- The layer kinds `build_norm_layer` can return, with their construction
arguments. -/
inductive NormLayer (α : Type)
  | BN3d (num_features : ℕ) (eps : α)
  | GN (num_groups num_channels : ℕ) (eps : α)
  | LN (ln : LayerNorm α)
  | SyncBN (num_features : ℕ) (eps : α)

/-- `build_norm_layer` (lines 24-34): assert the selector, then return
`GroupNorm(embed_dims, embed_dims, eps=1e-5)`, `LayerNorm(embed_dims, eps=1e-6)`
(with its default channels-last data format), `SyncBatchNorm(embed_dims, eps=1e-5)`,
or `BatchNorm3d(embed_dims, eps=1e-5)` in the default branch. -/
def build_norm_layer (norm_type : String) (embed_dims : ℕ) :
    Except PyErr (NormLayer ℚ) :=
  if ¬ (norm_type = "BN" ∨ norm_type = "GN" ∨ norm_type = "LN2d" ∨
        norm_type = "SyncBN") then .error .assertionError
  else if norm_type = "GN" then .ok (.GN embed_dims embed_dims (1 / 100000))
  else if norm_type = "LN2d" then
    .ok (.LN (LayerNorm.make embed_dims (1 / 1000000) .channelsLast))
  else if norm_type = "SyncBN" then .ok (.SyncBN embed_dims (1 / 100000))
  else .ok (.BN3d embed_dims (1 / 100000))

/-- The `data_format` of the `LayerNorm` inside a `build_norm_layer` result,
when the result is a `LayerNorm`. -/
def lnModeOf (e : Except PyErr (NormLayer ℚ)) : Option DataFormat :=
  match e with
  | .ok (.LN ln) => some ln.data_format
  | _ => none

/-! ### MultiOrderDWConv_3D -/

/-- Read channels `[lo, ...)` of a tensor: `t[:, lo:, ...]` (the length of the
slice is the channel count of the consumer). -/
def sliceCh (lo : ℕ) (t : Tensor α) : Tensor α :=
  fun b c z y x => t b (lo + c) z y x

/-- `torch.cat([t0', t1, t2], dim=1)` where `t0'` has `n0` channels and `t1`
has `n1` channels. -/
def catCh (n0 n1 : ℕ) (t0 t1 t2 : Tensor α) : Tensor α :=
  fun b c z y x =>
    if c < n0 then t0 b c z y x
    else if c < n0 + n1 then t1 b (c - n0) z y x
    else t2 b (c - (n0 + n1)) z y x

/-- The learned state of a constructed `MultiOrderDWConv_3D`: the channel
sub-range sizes and the four convolutions. -/
structure MultiOrderDWConv (α : Type) where
  embed_dims : ℕ
  embed_dims_0 : ℕ
  embed_dims_1 : ℕ
  embed_dims_2 : ℕ
  DW_conv0 : Conv3dCfg α
  DW_conv1 : Conv3dCfg α
  DW_conv2 : Conv3dCfg α
  PW_conv : Conv3dCfg α

/-- `MultiOrderDWConv_3D.forward` (lines 225-234):
`x_0 = DW_conv0(x)`;
`x_1 = DW_conv1(x_0[:, embed_dims_0 : embed_dims_0 + embed_dims_1, ...])`;
`x_2 = DW_conv2(x_0[:, embed_dims - embed_dims_2 :, ...])`;
`x = cat([x_0[:, :embed_dims_0, ...], x_1, x_2], dim=1)`;
`x = PW_conv(x)`. -/
def MultiOrderDWConv.forward [CommRing α] (m : MultiOrderDWConv α)
    (D H W : ℕ) (t : Tensor α) : Tensor α :=
  let x0 := conv3dApply m.DW_conv0 D H W t
  let x1 := conv3dApply m.DW_conv1 D H W (sliceCh m.embed_dims_0 x0)
  let x2 := conv3dApply m.DW_conv2 D H W (sliceCh (m.embed_dims - m.embed_dims_2) x0)
  conv3dApply m.PW_conv D H W (catCh m.embed_dims_0 m.embed_dims_1 x0 x1 x2)

/-! ### Spatial-shape tracking (all convolutions are stride 1 and cubic, so one
dimension suffices; slicing/concatenation along the channel axis and the
normalization layers leave the spatial shape unchanged) -/

/-- Spatial size of one dimension through the value branch of the attention
module: `DW_conv0` (kernel 5, padding `(1 + 4 d0) / 2`, dilation `d0`), then
`DW_conv1` (kernel 5, padding `(1 + 4 d1) / 2`, dilation `d1`), then
`DW_conv2` (kernel 7, padding `(1 + 6 d2) / 2`, dilation `d2`), then the
1x1x1 `PW_conv`. -/
def valueSpatial (d0 d1 d2 n : ℕ) : ℕ :=
  convOutDim
    (convOutDim
      (convOutDim
        (convOutDim n 5 ((1 + 4 * d0) / 2) d0 1)
        5 ((1 + 4 * d1) / 2) d1 1)
      7 ((1 + 6 * d2) / 2) d2 1)
    1 0 1 1

/-- Spatial size through `MultiOrderGatedAggregation_3D`: `proj_1` (1x1x1),
the pooled decomposition term (broadcast add, shape preserved), the `gate`
1x1x1 convolution in parallel with the value branch, `proj_2` (1x1x1), and the
residual add. -/
def attnSpatial (d0 d1 d2 n : ℕ) : ℕ :=
  convOutDim (valueSpatial d0 d1 d2 (convOutDim n 1 0 1 1)) 1 0 1 1

/-- Spatial size through `ChannelAggregationFFN_3D` as constructed by
`MogaBlock_3D` (kernel_size 3): `fc1` (1x1x1), `dwconv` (kernel 3, padding
`3 / 2`), `decompose` (1x1x1, broadcast add), `fc2` (1x1x1). -/
def ffnSpatial (n : ℕ) : ℕ :=
  convOutDim (convOutDim (convOutDim (convOutDim n 1 0 1 1) 3 (3 / 2) 1 1) 1 0 1 1) 1 0 1 1

/-- Spatial size of one dimension through `MogaBlock_3D.forward`: both
normalization layers preserve the shape; the attention and FFN branches
compose as above; the residual adds require and preserve equal shapes. -/
def mogaBlockSpatial (d0 d1 d2 n : ℕ) : ℕ :=
  ffnSpatial (attnSpatial d0 d1 d2 n)

/-! ### MogaBlock_3D -/

/-- A `MogaBlock_3D` after construction.  The four sub-module fields hold the
forward functions of the layers assigned in `__init__` (`norm1`, `attn`,
`norm2`, `mlp`); `drop_path` is `none` when `__init__` chose `nn.Identity()`
and `some mask` when it chose `DropPath(drop_path_rate)`, `mask b` being the
per-sample factor the stochastic layer sampled (0 for a dropped sample,
`1 / (1 - p)` for a surviving one). -/
structure MogaBlock (α : Type) where
  norm1 : Tensor α → Tensor α
  attn : Tensor α → Tensor α
  norm2 : Tensor α → Tensor α
  mlp : Tensor α → Tensor α
  layer_scale_1 : ℕ → α
  layer_scale_2 : ℕ → α
  drop_path : Option (ℕ → α)

/-- Modelled from the spec: the external `timm` `DropPath` layer "randomly
zeroes entire residual branches with a given probability per sample and
rescales surviving ones"; `none` is `nn.Identity()`. -/
def applyDropPath [Mul α] : Option (ℕ → α) → Tensor α → Tensor α
  | none, t => t
  | some mask, t => fun b c z y x => mask b * t b c z y x

/-- The `drop_path` choice at lines 363-364 of `MogaBlock_3D.__init__`:
`DropPath(drop_path_rate) if drop_path_rate > 0. else nn.Identity()`. -/
def mkDropPath (drop_path_rate : ℚ) (mask : ℕ → α) : Option (ℕ → α) :=
  if 0 < drop_path_rate then some mask else none

/-- `MogaBlock_3D.forward` (lines 383-392):
`identity = x`; `x = layer_scale_1 * attn(norm1(x))`;
`x = identity + drop_path(x)`; `identity = x`;
`x = layer_scale_2 * mlp(norm2(x))`; `x = identity + drop_path(x)`. -/
def MogaBlock.forward [Mul α] [Add α] (blk : MogaBlock α) (x : Tensor α) :
    Tensor α :=
  let identity1 := x
  let a := chanScale blk.layer_scale_1 (blk.attn (blk.norm1 x))
  let x1 := Tensor.add identity1 (applyDropPath blk.drop_path a)
  let identity2 := x1
  let m := chanScale blk.layer_scale_2 (blk.mlp (blk.norm2 x1))
  Tensor.add identity2 (applyDropPath blk.drop_path m)

/-! ### Activations over ℝ and the LayerNorm forward -/

/-- The logistic sigmoid. -/
noncomputable def sigmoid (x : ℝ) : ℝ := 1 / (1 + Real.exp (-x))

/-- `nn.SiLU`: `x * sigmoid(x)`. -/
noncomputable def silu (x : ℝ) : ℝ := x * sigmoid x

/-- `nn.ReLU`. -/
def relu (x : ℝ) : ℝ := max 0 x

/-- The standard Gaussian cumulative distribution function. -/
noncomputable def gaussCdf (x : ℝ) : ℝ :=
  (∫ t in Set.Iic x, Real.exp (-(t ^ 2) / 2)) / Real.sqrt (2 * Real.pi)

/-- Exact `nn.GELU`: `x * Phi(x)`. -/
noncomputable def gelu (x : ℝ) : ℝ := x * gaussCdf x

/-- The scalar function computed by each `ActLayer`. -/
noncomputable def applyAct : ActLayer → ℝ → ℝ
  | .identity => id
  | .gelu => gelu
  | .relu => relu
  | .silu => silu

/-- Activation layers act pointwise on tensors. -/
noncomputable def actPointwise (a : ActLayer) (t : Tensor ℝ) : Tensor ℝ :=
  fun b c z y x => applyAct a (t b c z y x)

/-- Mean of a tensor over its three spatial dimensions, per (batch, channel):
`x.mean(dim=(2, 3, 4), keepdim=True)` read at spatial position 0. -/
noncomputable def spatialMean (D H W : ℕ) (t : Tensor ℝ) (b c : ℕ) : ℝ :=
  (∑ z ∈ Finset.range D, ∑ y ∈ Finset.range H, ∑ x ∈ Finset.range W, t b c z y x) /
    (D * H * W)

/-- The channels-first branch of `LayerNorm.forward` (lines 50-57):
`u = x.mean(dim=(2,3,4), keepdim=True)`,
`s = (x - u).pow(2).mean(dim=(2,3,4), keepdim=True)`,
`x = (x - u) / torch.sqrt(s + eps)`,
`x = weight[:, None, None, None] * x + bias[:, None, None, None]`. -/
noncomputable def LayerNorm.forwardChannelsFirst (ln : LayerNorm ℝ) (D H W : ℕ)
    (t : Tensor ℝ) : Tensor ℝ :=
  fun b c z y x =>
    let u := spatialMean D H W t b c
    let s := spatialMean D H W
      (fun b2 c2 z2 y2 x2 => (t b2 c2 z2 y2 x2 - spatialMean D H W t b2 c2) ^ 2) b c
    ln.weight c * ((t b c z y x - u) / Real.sqrt (s + ln.eps)) + ln.bias c

/-- Mean over the last dimension, per (batch, channel, depth, height). -/
noncomputable def lastDimMean (W : ℕ) (t : Tensor ℝ) (b c z y : ℕ) : ℝ :=
  (∑ x ∈ Finset.range W, t b c z y x) / W

/-- The channels-last branch of `LayerNorm.forward` (line 49):
`F.layer_norm(x, (normalized_shape,), weight, bias, eps)` normalizes over the
last dimension (of size `W`, which the runtime requires to equal
`normalized_shape`) and applies weight and bias indexed by the last-dimension
position. -/
noncomputable def LayerNorm.forwardChannelsLast (ln : LayerNorm ℝ) (W : ℕ)
    (t : Tensor ℝ) : Tensor ℝ :=
  fun b c z y x =>
    let u := lastDimMean W t b c z y
    let s := lastDimMean W
      (fun b2 c2 z2 y2 x2 => (t b2 c2 z2 y2 x2 - lastDimMean W t b2 c2 z2 y2) ^ 2) b c z y
    ln.weight x * ((t b c z y x - u) / Real.sqrt (s + ln.eps)) + ln.bias x

/-- `LayerNorm.forward` (lines 47-57): dispatch on the stored data format. -/
noncomputable def LayerNorm.forward (ln : LayerNorm ℝ) (D H W : ℕ)
    (t : Tensor ℝ) : Tensor ℝ :=
  match ln.data_format with
  | .channelsLast => ln.forwardChannelsLast W t
  | .channelsFirst => ln.forwardChannelsFirst D H W t

/-! ### MultiOrderGatedAggregation_3D -/

/-- The learned state of a `MultiOrderGatedAggregation_3D`.  Per `__init__`,
`act_value` and `act_gate` are both `build_act_layer(attn_act_type)`, and
`sigma` is an `ElementScale_3D` parameter of shape `(1, C, 1, 1, 1)`. -/
structure MultiOrderGatedAggregation where
  embed_dims : ℕ
  attn_force_fp32 : Bool
  proj_1 : Conv3dCfg ℝ
  gate : Conv3dCfg ℝ
  value : MultiOrderDWConv ℝ
  proj_2 : Conv3dCfg ℝ
  act_value : ActLayer
  act_gate : ActLayer
  sigma : ℕ → ℝ

/-- `F.adaptive_avg_pool3d(x, output_size=1)`: global spatial mean, output
shape `(B, C, 1, 1, 1)`. -/
noncomputable def adaptiveAvgPool1 (D H W : ℕ) (t : Tensor ℝ) : Tensor ℝ :=
  fun b c _ _ _ => spatialMean D H W t b c

/-- `MultiOrderGatedAggregation_3D.feat_decompose` (lines 284-293):
`x = proj_1(x)`; `x_d = adaptive_avg_pool3d(x, 1)`;
`x = x + sigma * (x - x_d)` (the pooled tensor broadcasts over the spatial
dimensions); `x = act_value(x)`.  The two `print` calls are console output
only and have no effect on the value. -/
noncomputable def MultiOrderGatedAggregation.feat_decompose
    (m : MultiOrderGatedAggregation) (D H W : ℕ) (x : Tensor ℝ) : Tensor ℝ :=
  let x1 := conv3dApply m.proj_1 D H W x
  let xd := adaptiveAvgPool1 D H W x1
  let x2 : Tensor ℝ := fun b c z y xx =>
    x1 b c z y xx + m.sigma c * (x1 b c z y xx - xd b c 0 0 0)
  actPointwise m.act_value x2

/-- `MultiOrderGatedAggregation_3D.forward_gating` (lines 295-299):
`proj_2(act_gate(g) * act_gate(v))` computed under disabled autocast with both
arguments cast to float32.  In this exact-real model the casts are the
identity; note the body applies `act_gate` to both arguments. -/
noncomputable def MultiOrderGatedAggregation.forward_gating
    (m : MultiOrderGatedAggregation) (D H W : ℕ) (g v : Tensor ℝ) : Tensor ℝ :=
  conv3dApply m.proj_2 D H W
    (Tensor.mul (actPointwise m.act_gate g) (actPointwise m.act_gate v))

/-- `MultiOrderGatedAggregation_3D.forward` (lines 301-316):
`shortcut = x.clone()`; `x = feat_decompose(x)`; `g = gate(x)`;
`v = value(x)`; then
`x = proj_2(act_gate(g) * act_gate(v))` when `attn_force_fp32` is off, and
`x = forward_gating(act_gate(g), act_gate(v))` when it is on;
finally `x = x + shortcut`. -/
noncomputable def MultiOrderGatedAggregation.forward
    (m : MultiOrderGatedAggregation) (D H W : ℕ) (x : Tensor ℝ) : Tensor ℝ :=
  let shortcut := x
  let xd := m.feat_decompose D H W x
  let g := conv3dApply m.gate D H W xd
  let v := m.value.forward D H W xd
  let out :=
    if m.attn_force_fp32 = false then
      conv3dApply m.proj_2 D H W
        (Tensor.mul (actPointwise m.act_gate g) (actPointwise m.act_gate v))
    else
      m.forward_gating D H W (actPointwise m.act_gate g) (actPointwise m.act_gate v)
  Tensor.add out shortcut

/-! ### Parameter introspection -/

/-- One registered `nn.Parameter`: its element count and its
`requires_grad` flag. -/
structure PyParam where
  numel : ℕ
  requires_grad : Bool

/-- `calculate_model_parameters_in_million` (lines 73-89):
`sum(p.numel() for p in model.parameters()) / 1e6`.  `model.parameters()`
yields every registered parameter, whatever its `requires_grad` flag. -/
def calculate_model_parameters_in_million (ps : List PyParam) : ℚ :=
  ((ps.map (·.numel)).sum : ℚ) / 1000000

/-- Follows the spec's words, for comparison with the source function: the
element count of exactly the learnable (trainable) parameters, in millions. -/
def learnableParametersInMillion (ps : List PyParam) : ℚ :=
  (((ps.filter (·.requires_grad)).map (·.numel)).sum : ℚ) / 1000000

/-- The parameter list registered by `ElementScale_3D.__init__`: one parameter
of shape `(1, embed_dims, 1, 1, 1)` with the given `requires_grad` flag. -/
def elementScaleParams (embed_dims : ℕ) (rg : Bool) : List PyParam :=
  [⟨1 * embed_dims * 1 * 1 * 1, rg⟩]

/-! ### Spec-side comparison definitions -/

/-- Follows the spec's words for the block forward:
`x <- x + stochastic_drop(layer_scale_1 * attention(norm1(x)))` then
`x <- x + stochastic_drop(layer_scale_2 * ffn(norm2(x)))`. -/
def specTwoStageResidual [Mul α] [Add α] (blk : MogaBlock α) (x : Tensor α) :
    Tensor α :=
  let y := Tensor.add x
    (applyDropPath blk.drop_path (chanScale blk.layer_scale_1 (blk.attn (blk.norm1 x))))
  Tensor.add y
    (applyDropPath blk.drop_path (chanScale blk.layer_scale_2 (blk.mlp (blk.norm2 y))))

/-- Follows the spec's words for the block forward at `drop_path_rate = 0`:
the stochastic drop is the identity, so the scaled branch outputs are added
unchanged. -/
def specTwoStageNoDrop [Mul α] [Add α] (blk : MogaBlock α) (x : Tensor α) :
    Tensor α :=
  let y := Tensor.add x (chanScale blk.layer_scale_1 (blk.attn (blk.norm1 x)))
  Tensor.add y (chanScale blk.layer_scale_2 (blk.mlp (blk.norm2 y)))

/-- Follows the spec's words for `MultiOrderDWConv_3D.forward`: base depthwise
convolution on the full input; branch 1 on the middle sub-range
`[c0, c0 + c1)`; branch 2 on the last sub-range, described as `[C - c2, C)`,
i.e. the third contiguous block starting at `c0 + c1`; concatenation restoring
the channels in original order; pointwise mixing convolution. -/
def specMultiOrderForward [CommRing α] (m : MultiOrderDWConv α) (D H W : ℕ)
    (x : Tensor α) : Tensor α :=
  let x0 := conv3dApply m.DW_conv0 D H W x
  let x1 := conv3dApply m.DW_conv1 D H W (sliceCh m.embed_dims_0 x0)
  let x2 := conv3dApply m.DW_conv2 D H W
    (sliceCh (m.embed_dims_0 + m.embed_dims_1) x0)
  conv3dApply m.PW_conv D H W (catCh m.embed_dims_0 m.embed_dims_1 x0 x1 x2)

/-! ### Concrete instances used by witnesses and counterexamples -/

/-- The constant tensor. -/
def constT (q : ℚ) : Tensor ℚ := fun _ _ _ _ _ => q

/-- A `MogaBlock` over ℚ with identity sub-modules, unit layer scales and the
`drop_path` the constructor picks for rate 0. -/
def witBlock : MogaBlock ℚ :=
  ⟨id, id, id, id, fun _ => 1, fun _ => 1, mkDropPath 0 (fun _ => 1)⟩

/-- A `MogaBlock` over ℚ with both layer scales set to zero and an active
(sampled) stochastic-depth mask. -/
def witBlockZeroLS : MogaBlock ℚ :=
  ⟨id, id, id, id, fun _ => 0, fun _ => 0, some (fun _ => 7)⟩

/-- A trivial 1x1x1 convolution configuration over ℚ on 3 channels. -/
def witCfg : Conv3dCfg ℚ :=
  ⟨3, 3, 1, 0, 1, 1, fun _ _ _ _ _ => 0, fun _ => 0⟩

/-- A `MultiOrderDWConv` over ℚ with 3 channels split as 1 + 1 + 1. -/
def witMODW : MultiOrderDWConv ℚ :=
  ⟨3, 1, 1, 1, witCfg, witCfg, witCfg, witCfg⟩

/-- All-zero convolution weights over ℝ. -/
noncomputable def zeroW : ℕ → ℕ → ℕ → ℕ → ℕ → ℝ := fun _ _ _ _ _ => 0

/-- All-one convolution weights over ℝ. -/
noncomputable def oneW : ℕ → ℕ → ℕ → ℕ → ℕ → ℝ := fun _ _ _ _ _ => 1

/-- All-zero bias over ℝ. -/
noncomputable def zeroB : ℕ → ℝ := fun _ => 0

/-- All-one bias over ℝ. -/
noncomputable def oneB : ℕ → ℝ := fun _ => 1

/-- The all-zero input tensor over ℝ. -/
noncomputable def zeroT : Tensor ℝ := fun _ _ _ _ _ => 0

/-- A 3-channel `MultiOrderDWConv` over ℝ (split 1 + 1 + 1, dilations 1, 2, 3,
the paddings from the source formulas) whose depthwise weights and biases are
zero and whose pointwise convolution has zero weights and bias 1, so its
output is constantly 1. -/
noncomputable def cexValue : MultiOrderDWConv ℝ :=
  ⟨3, 1, 1, 1,
   ⟨3, 3, 5, 2, 1, 3, zeroW, zeroB⟩,
   ⟨1, 1, 5, 4, 2, 1, zeroW, zeroB⟩,
   ⟨1, 1, 7, 9, 3, 1, zeroW, zeroB⟩,
   ⟨3, 3, 1, 0, 1, 1, zeroW, oneB⟩⟩

/-- A 3-channel `MultiOrderGatedAggregation` with `attn_act_type = SiLU`
(the source default): gate convolution with zero weights and bias 1 (so the
gate branch is constantly 1), `cexValue` as the value branch (constantly 1),
and a `proj_2` with all-one weights and zero bias. -/
noncomputable def cexMOGA (force : Bool) : MultiOrderGatedAggregation :=
  ⟨3, force,
   ⟨3, 3, 1, 0, 1, 1, zeroW, zeroB⟩,
   ⟨3, 3, 1, 0, 1, 1, zeroW, oneB⟩,
   cexValue,
   ⟨3, 3, 1, 0, 1, 1, oneW, zeroB⟩,
   .silu, .silu, fun _ => 1 / 100000⟩

/-- Like `cexMOGA true` but with `attn_act_type = None`, i.e. identity
activations (which are idempotent). -/
noncomputable def witMOGA : MultiOrderGatedAggregation :=
  ⟨3, true,
   ⟨3, 3, 1, 0, 1, 1, zeroW, zeroB⟩,
   ⟨3, 3, 1, 0, 1, 1, zeroW, oneB⟩,
   cexValue,
   ⟨3, 3, 1, 0, 1, 1, oneW, zeroB⟩,
   .identity, .identity, fun _ => 1 / 100000⟩

/-- What the forced-fp32 branch of `MultiOrderGatedAggregation_3D.forward`
actually computes (casts modelled as exact): `forward` hands
`act_gate(g), act_gate(v)` to `forward_gating`, which applies `act_gate` to
both again, so the output added to the shortcut is
`proj_2(act_gate(act_gate(gate(x))) * act_gate(act_gate(value(x))))`. -/
noncomputable def doubleGatedOut (m : MultiOrderGatedAggregation) (D H W : ℕ)
    (x : Tensor ℝ) : Tensor ℝ :=
  Tensor.add
    (conv3dApply m.proj_2 D H W
      (Tensor.mul
        (actPointwise m.act_gate (actPointwise m.act_gate
          (conv3dApply m.gate D H W (m.feat_decompose D H W x))))
        (actPointwise m.act_gate (actPointwise m.act_gate
          (m.value.forward D H W (m.feat_decompose D H W x))))))
    x

/-! ## Helper lemmas -/

/-- The first sub-range size is defined as the full width minus the other two,
so the three sizes always sum to the full width. -/
theorem splitSizes_sum (channel_split : List ℤ) (embed_dims : ℕ) :
    (splitSizes channel_split embed_dims).1 +
      (splitSizes channel_split embed_dims).2.1 +
      (splitSizes channel_split embed_dims).2.2 = (embed_dims : ℤ) := by
  simp only [splitSizes]
  ring

/-- A stride-1 convolution whose total padding equals the dilated kernel span
preserves the spatial dimension. -/
theorem convOutDim_preserve (n k pad dil : ℕ) (hpad : 2 * pad = dil * (k - 1))
    (hn : 1 ≤ n) : convOutDim n k pad dil 1 = n := by
  unfold convOutDim
  omega

theorem sigmoid_pos (x : ℝ) : 0 < sigmoid x := by
  unfold sigmoid
  positivity

theorem sigmoid_lt_one (x : ℝ) : sigmoid x < 1 := by
  unfold sigmoid
  rw [div_lt_one (by positivity)]
  linarith [Real.exp_pos (-x)]

theorem silu_pos {x : ℝ} (hx : 0 < x) : 0 < silu x :=
  mul_pos hx (sigmoid_pos x)

theorem silu_lt_self {x : ℝ} (hx : 0 < x) : silu x < x :=
  calc silu x = x * sigmoid x := rfl
    _ < x * 1 := mul_lt_mul_of_pos_left (sigmoid_lt_one x) hx
    _ = x := mul_one x

/-- A convolution with all-zero weights outputs its bias. -/
theorem conv3dApply_zeroW (inC outC k pad dil groups : ℕ) (bias : ℕ → ℝ)
    (D H W : ℕ) (t : Tensor ℝ) (b o z y x : ℕ) :
    conv3dApply ⟨inC, outC, k, pad, dil, groups, zeroW, bias⟩ D H W t b o z y x =
      bias o := by
  simp [conv3dApply, zeroW]

/-- The concrete value branch of the counterexample outputs constantly 1. -/
theorem cexValue_eval (D H W : ℕ) (t : Tensor ℝ) (b o z y x : ℕ) :
    cexValue.forward D H W t b o z y x = 1 := by
  unfold MultiOrderDWConv.forward cexValue
  exact conv3dApply_zeroW 3 3 1 0 1 1 oneB D H W _ b o z y x

/-- Evaluation of the counterexample module's forward pass at the origin:
with the gate and value branches constantly 1 and an all-one-weight `proj_2`
on 3 channels, the default path yields `3 * silu(1)^2` and the forced-fp32
path yields `3 * silu(silu(1))^2` (the activation is applied twice there). -/
theorem cexMOGA_eval (force : Bool) :
    (cexMOGA force).forward 1 1 1 zeroT 0 0 0 0 0 =
      if force then 3 * (silu (silu 1) * silu (silu 1))
      else 3 * (silu 1 * silu 1) := by
  have hg : ∀ (t : Tensor ℝ) (b o z y x : ℕ),
      conv3dApply ⟨3, 3, 1, 0, 1, 1, zeroW, oneB⟩ 1 1 1 t b o z y x = 1 :=
    fun t b o z y x => conv3dApply_zeroW 3 3 1 0 1 1 oneB 1 1 1 t b o z y x
  cases force <;>
  · unfold MultiOrderGatedAggregation.forward
      MultiOrderGatedAggregation.forward_gating cexMOGA
    norm_num [Tensor.add, Tensor.mul, actPointwise, applyAct, zeroT, hg,
      cexValue_eval, conv3dApply, oneW, zeroB, zeroW, oneB, access,
      Finset.sum_range_succ, Finset.sum_range_zero]
    try ring

/-! ## Claim theorems -/

/-- C1: for every valid configuration (all three dilations in [1,3]) and any
spatial extent at least the smallest kernel's receptive field, every
convolution of the block preserves its spatial dimension — the kernel-5
depthwise convolutions with padding `(1+4d)/2`, the kernel-7 one with padding
`(1+6d)/2`, the FFN depthwise convolution (kernel 3, padding `3/2`) and the
1x1x1 pointwise convolutions — and hence the composed spatial size through
`MogaBlock_3D.forward` equals the input size; the channel concatenation inside
the value branch always restores the full channel count, so the block output
shape is exactly the input shape `(B, C, D, H, W)`. -/
theorem C1_block_shape_invariance (d0 d1 d2 n : ℕ)
    (h0 : 1 ≤ d0 ∧ d0 ≤ 3) (h1 : 1 ≤ d1 ∧ d1 ≤ 3) (h2 : 1 ≤ d2 ∧ d2 ≤ 3)
    (hn : 1 ≤ n) :
    convOutDim n 5 ((1 + 4 * d0) / 2) d0 1 = n ∧
    convOutDim n 5 ((1 + 4 * d1) / 2) d1 1 = n ∧
    convOutDim n 7 ((1 + 6 * d2) / 2) d2 1 = n ∧
    convOutDim n 3 (3 / 2) 1 1 = n ∧
    convOutDim n 1 0 1 1 = n ∧
    mogaBlockSpatial d0 d1 d2 n = n ∧
    (∀ (channel_split : List ℤ) (C : ℕ),
      (splitSizes channel_split C).1 + (splitSizes channel_split C).2.1 +
        (splitSizes channel_split C).2.2 = (C : ℤ)) := by
  obtain ⟨h01, h02⟩ := h0
  obtain ⟨h11, h12⟩ := h1
  obtain ⟨h21, h22⟩ := h2
  refine ⟨?_, ?_, ?_, ?_, ?_, ?_, fun cs C => splitSizes_sum cs C⟩ <;>
    first
      | · unfold mogaBlockSpatial ffnSpatial attnSpatial valueSpatial convOutDim
          omega
      | · unfold convOutDim
          omega

/-- C1 witness: concrete valid configuration. -/
theorem C1_block_shape_invariance_witness :
    ((1 ≤ 1 ∧ 1 ≤ 3) ∧ (1 ≤ 2 ∧ 2 ≤ 3) ∧ (1 ≤ 3 ∧ 3 ≤ 3) ∧ 1 ≤ 8) ∧
    (convOutDim 8 5 ((1 + 4 * 1) / 2) 1 1 = 8 ∧
     convOutDim 8 5 ((1 + 4 * 2) / 2) 2 1 = 8 ∧
     convOutDim 8 7 ((1 + 6 * 3) / 2) 3 1 = 8 ∧
     convOutDim 8 3 (3 / 2) 1 1 = 8 ∧
     convOutDim 8 1 0 1 1 = 8 ∧
     mogaBlockSpatial 1 2 3 8 = 8 ∧
     (∀ (channel_split : List ℤ) (C : ℕ),
       (splitSizes channel_split C).1 + (splitSizes channel_split C).2.1 +
         (splitSizes channel_split C).2.2 = (C : ℤ))) :=
  ⟨by decide,
   C1_block_shape_invariance 1 2 3 8 (by decide) (by decide) (by decide) (by decide)⟩

/-- C3: for every `embed_dims` and length-3 `channel_split` with positive sum
dividing `embed_dims`, the three sub-range sizes computed by
`MultiOrderDWConv_3D.__init__` sum exactly to `embed_dims`, the first branch
being defined as the remainder `embed_dims - embed_dims_1 - embed_dims_2`. -/
theorem C3_channel_split_exactness (channel_split : List ℤ) (embed_dims : ℕ)
    (hlen : channel_split.length = 3) (hpos : 0 < channel_split.sum)
    (hdvd : channel_split.sum ∣ (embed_dims : ℤ)) :
    (splitSizes channel_split embed_dims).1 +
        (splitSizes channel_split embed_dims).2.1 +
        (splitSizes channel_split embed_dims).2.2 = (embed_dims : ℤ) ∧
    (splitSizes channel_split embed_dims).1 =
      (embed_dims : ℤ) - (splitSizes channel_split embed_dims).2.1 -
        (splitSizes channel_split embed_dims).2.2 := by
  refine ⟨splitSizes_sum channel_split embed_dims, ?_⟩
  simp only [splitSizes]

/-- C3 witness: the default configuration `channel_split = [1, 3, 4]`,
`embed_dims = 8`. -/
theorem C3_channel_split_exactness_witness :
    (([1, 3, 4] : List ℤ).length = 3 ∧ 0 < ([1, 3, 4] : List ℤ).sum ∧
      ([1, 3, 4] : List ℤ).sum ∣ ((8 : ℕ) : ℤ)) ∧
    ((splitSizes [1, 3, 4] 8).1 + (splitSizes [1, 3, 4] 8).2.1 +
        (splitSizes [1, 3, 4] 8).2.2 = ((8 : ℕ) : ℤ) ∧
      (splitSizes [1, 3, 4] 8).1 =
        ((8 : ℕ) : ℤ) - (splitSizes [1, 3, 4] 8).2.1 - (splitSizes [1, 3, 4] 8).2.2) :=
  ⟨by refine ⟨by decide, by decide, ?_⟩; decide,
   C3_channel_split_exactness [1, 3, 4] 8 (by decide) (by decide) (by decide)⟩

/-- C8 counterexample: with `channel_split = [1, 1]` (length 2, nonzero sum)
the constructor fails at the `split_ratio[2]` indexing with an `IndexError`,
not with an assertion error as the claim states. -/
theorem C8_counterexample :
    multiOrderDWConvMake 8 [1, 2, 3] [1, 1] = .error .indexError ∧
    (Except.error PyErr.indexError : Except PyErr (ℤ × ℤ × ℤ)) ≠
      .error .assertionError := by
  constructor
  · rfl
  · intro h
    exact absurd (Except.error.inj h) (by decide)

/-- C8 (amended): `build_act_layer` raises an assertion error for every
selector outside {None, GELU, ReLU, SiLU} and returns the identity layer for
None; `build_norm_layer` raises an assertion error for every selector outside
{BN, GN, LN2d, SyncBN}; `MultiOrderDWConv_3D`'s constructor fails
synchronously, producing no layer, whenever `dw_dilation` or `channel_split`
does not have length 3, some dilation is outside [1,3], or `embed_dims` is not
divisible by `sum(channel_split)` — with an assertion error in every such case
except that a `channel_split` with fewer than 3 entries raises an `IndexError`
at the `split_ratio` indexing before any assertion runs (and one summing to
zero raises a `ZeroDivisionError`). -/
theorem C8_construction_validation :
    (∀ s : String, ¬ (s = "GELU" ∨ s = "ReLU" ∨ s = "SiLU") →
      build_act_layer (some s) = .error .assertionError) ∧
    build_act_layer none = .ok .identity ∧
    (∀ (s : String) (embed_dims : ℕ),
      ¬ (s = "BN" ∨ s = "GN" ∨ s = "LN2d" ∨ s = "SyncBN") →
      build_norm_layer s embed_dims = .error .assertionError) ∧
    (∀ (embed_dims : ℕ) (dw_dilation channel_split : List ℤ),
      channel_split.sum ≠ 0 → 3 ≤ channel_split.length →
      (¬ (dw_dilation.length = channel_split.length ∧ channel_split.length = 3) ∨
        (∃ d ∈ dw_dilation, ¬ (1 ≤ d ∧ d ≤ 3)) ∨
        ¬ ((channel_split.sum : ℤ) ∣ (embed_dims : ℤ))) →
      multiOrderDWConvMake embed_dims dw_dilation channel_split =
        .error .assertionError) ∧
    (∀ (embed_dims : ℕ) (dw_dilation channel_split : List ℤ),
      channel_split.length < 3 → (channel_split = [] ∨ channel_split.sum ≠ 0) →
      multiOrderDWConvMake embed_dims dw_dilation channel_split =
        .error .indexError) := by
  refine ⟨?_, rfl, ?_, ?_, ?_⟩
  · intro s h
    simp [build_act_layer, h]
  · intro s embed_dims h
    simp [build_norm_layer, h]
  · intro embed_dims dw cs hsum hlen hviol
    unfold multiOrderDWConvMake
    split_ifs with h1 h2 h3 h4 h5 <;> try rfl
    · exact absurd h1.2 hsum
    · omega
    · exfalso
      push_neg at h3
      rcases hviol with h | h | h
      · exact h ⟨h3.1, h3.2⟩
      · obtain ⟨d, hd, hdr⟩ := h
        exact hdr (h4 d hd)
      · exact h h5
  · intro embed_dims dw cs hlen hs
    have h1 : ¬ (cs ≠ [] ∧ cs.sum = 0) := by
      rcases hs with h | h
      · exact fun hc => hc.1 h
      · exact fun hc => h hc.2
    unfold multiOrderDWConvMake
    rw [if_neg h1, if_pos hlen]

/-- C8 witness: a rejected activation selector, a rejected normalization
selector, a divisibility violation, and a short `channel_split`. -/
theorem C8_construction_validation_witness :
    build_act_layer (some "Tanh") = .error .assertionError ∧
    build_norm_layer "IN" 8 = .error .assertionError ∧
    multiOrderDWConvMake 8 [1, 2, 3] [1, 3, 5] = .error .assertionError ∧
    multiOrderDWConvMake 8 [1, 2, 3] [1, 1] = .error .indexError :=
  ⟨C8_construction_validation.1 "Tanh" (by decide),
   C8_construction_validation.2.2.1 "IN" 8 (by decide),
   C8_construction_validation.2.2.2.1 8 [1, 2, 3] [1, 3, 5] (by decide)
     (by decide) (Or.inr (Or.inr (by decide))),
   C8_construction_validation.2.2.2.2 8 [1, 2, 3] [1, 1] (by decide)
     (Or.inr (by decide))⟩

/-- C9 counterexample: an `ElementScale_3D` constructed with
`requires_grad=False` contributes its elements to
`calculate_model_parameters_in_million` even though it is not learnable, so
the function does not return the learnable-parameter count. -/
theorem C9_counterexample :
    calculate_model_parameters_in_million (elementScaleParams 5 false) ≠
      learnableParametersInMillion (elementScaleParams 5 false) := by
  norm_num [calculate_model_parameters_in_million, learnableParametersInMillion,
    elementScaleParams]

/-- C9 (amended): `calculate_model_parameters_in_million` returns the total
element count of all registered parameters — trainable or not — divided by
1e6; it coincides with the learnable-parameter count in millions exactly when
every registered parameter has `requires_grad=True`. -/
theorem C9_parameter_count (ps : List PyParam) :
    calculate_model_parameters_in_million ps =
      ((ps.map (·.numel)).sum : ℚ) / 1000000 ∧
    ((∀ p ∈ ps, p.requires_grad = true) →
      calculate_model_parameters_in_million ps = learnableParametersInMillion ps) := by
  refine ⟨rfl, fun h => ?_⟩
  unfold calculate_model_parameters_in_million learnableParametersInMillion
  rw [List.filter_eq_self.mpr h]

/-- C9 witness: a trainable `ElementScale_3D` parameter list. -/
theorem C9_parameter_count_witness :
    (∀ p ∈ elementScaleParams 3 true, p.requires_grad = true) ∧
    calculate_model_parameters_in_million (elementScaleParams 3 true) =
      learnableParametersInMillion (elementScaleParams 3 true) :=
  ⟨by decide, (C9_parameter_count (elementScaleParams 3 true)).2 (by decide)⟩

/-- C10: the split-ratio division executes before any assertion: every
length-3 `channel_split` summing to 0 makes construction fail with a
division-by-zero error at the ratio computation, and the divisibility
assertion is reached (error or success) only when the sum is nonzero. -/
theorem C10_division_before_assertions :
    (∀ (embed_dims : ℕ) (dw_dilation channel_split : List ℤ),
      channel_split.length = 3 → channel_split.sum = 0 →
      multiOrderDWConvMake embed_dims dw_dilation channel_split =
        .error .zeroDivision) ∧
    (∀ (embed_dims : ℕ) (dw_dilation channel_split : List ℤ),
      (multiOrderDWConvMake embed_dims dw_dilation channel_split =
          .error .assertionError ∨
        ∃ sz, multiOrderDWConvMake embed_dims dw_dilation channel_split = .ok sz) →
      channel_split.sum ≠ 0) := by
  constructor
  · intro embed_dims dw cs hlen hsum
    unfold multiOrderDWConvMake
    rw [if_pos ⟨by intro h; rw [h] at hlen; exact absurd hlen (by decide), hsum⟩]
  · intro embed_dims dw cs h hsum
    unfold multiOrderDWConvMake at h
    by_cases hne : cs = []
    · rw [if_neg (by simp [hne]), if_pos (by simp [hne])] at h
      rcases h with h | ⟨sz, h⟩
      · exact absurd (Except.error.inj h) (by decide)
      · exact Except.noConfusion h
    · rw [if_pos ⟨hne, hsum⟩] at h
      rcases h with h | ⟨sz, h⟩
      · exact absurd (Except.error.inj h) (by decide)
      · exact Except.noConfusion h

/-- C10 witness: `channel_split = [0, 0, 0]`. -/
theorem C10_division_before_assertions_witness :
    (([0, 0, 0] : List ℤ).length = 3 ∧ ([0, 0, 0] : List ℤ).sum = 0) ∧
    multiOrderDWConvMake 8 [1, 2, 3] [0, 0, 0] = .error .zeroDivision :=
  ⟨⟨by decide, by decide⟩,
   C10_division_before_assertions.1 8 [1, 2, 3] [0, 0, 0] (by decide) (by decide)⟩

/-- C2: `MogaBlock_3D.forward` computes exactly the two-stage residual
composition `x + drop(ls1 * attn(norm1 x))` followed by
`y + drop(ls2 * mlp(norm2 y))`; and when `drop_path_rate = 0` the constructor
picks `nn.Identity()` for `drop_path`, so the scaled branch outputs are added
unchanged. -/
theorem C2_two_stage_residual {α : Type} [CommRing α] (blk : MogaBlock α)
    (drop_path_rate : ℚ) (mask : ℕ → α)
    (hdp : blk.drop_path = mkDropPath drop_path_rate mask) (x : Tensor α) :
    blk.forward x = specTwoStageResidual blk x ∧
    (drop_path_rate = 0 →
      blk.drop_path = none ∧ blk.forward x = specTwoStageNoDrop blk x) := by
  refine ⟨rfl, fun h0 => ?_⟩
  have hnone : blk.drop_path = none := by
    rw [hdp, h0]
    unfold mkDropPath
    rw [if_neg (lt_irrefl 0)]
  refine ⟨hnone, ?_⟩
  unfold MogaBlock.forward specTwoStageNoDrop
  rw [hnone]
  rfl

/-- C2 witness: identity sub-modules over ℚ, rate 0, constant input. -/
theorem C2_two_stage_residual_witness :
    (witBlock.drop_path = mkDropPath 0 (fun _ => 1) ∧ (0 : ℚ) = 0) ∧
    (witBlock.forward (constT 2) = specTwoStageResidual witBlock (constT 2) ∧
      (witBlock.drop_path = none ∧
        witBlock.forward (constT 2) = specTwoStageNoDrop witBlock (constT 2))) :=
  ⟨⟨rfl, rfl⟩,
   ⟨(C2_two_stage_residual witBlock 0 (fun _ => 1) rfl (constT 2)).1,
    (C2_two_stage_residual witBlock 0 (fun _ => 1) rfl (constT 2)).2 rfl⟩⟩

/-- C7: if both layer-scale parameters are zero, `MogaBlock_3D.forward` is the
identity, whatever the normalization, attention, FFN sub-modules and the
stochastic-depth state are. -/
theorem C7_identity_at_zero_layer_scale {α : Type} [CommRing α]
    (blk : MogaBlock α) (h1 : blk.layer_scale_1 = fun _ => 0)
    (h2 : blk.layer_scale_2 = fun _ => 0) (x : Tensor α) :
    blk.forward x = x := by
  have key : ∀ (dp : Option (ℕ → α)) (t : Tensor α) (b c z y w : ℕ),
      applyDropPath dp (chanScale (fun _ => 0) t) b c z y w = 0 := by
    intro dp t b c z y w
    cases dp <;> simp [applyDropPath, chanScale]
  funext b c z y w
  simp only [MogaBlock.forward, Tensor.add, h1, h2, key, add_zero]

/-- C7 witness: a block with zero layer scales and an active drop mask. -/
theorem C7_identity_at_zero_layer_scale_witness :
    ((witBlockZeroLS.layer_scale_1 = fun _ => (0 : ℚ)) ∧
      (witBlockZeroLS.layer_scale_2 = fun _ => (0 : ℚ))) ∧
    witBlockZeroLS.forward (constT 3) = constT 3 :=
  ⟨⟨rfl, rfl⟩, C7_identity_at_zero_layer_scale witBlockZeroLS rfl rfl (constT 3)⟩

/-- C4: `MultiOrderDWConv_3D.forward` applies `DW_conv0` to the full input,
`DW_conv1` to channels `[c0, c0 + c1)` of the result, `DW_conv2` to channels
`[C - c2, C)` — which, the sizes summing to `C`, is exactly the third
contiguous block `[c0 + c1, C)` — concatenates the first sub-range unchanged
with the two branch outputs, restoring `C` channels in original order, and
applies the pointwise convolution to the result. -/
theorem C4_multi_order_forward_steps {α : Type} [CommRing α]
    (m : MultiOrderDWConv α) (D H W : ℕ)
    (h : m.embed_dims_0 + m.embed_dims_1 + m.embed_dims_2 = m.embed_dims)
    (x : Tensor α) :
    m.embed_dims - m.embed_dims_2 = m.embed_dims_0 + m.embed_dims_1 ∧
    m.forward D H W x = specMultiOrderForward m D H W x ∧
    (∀ (t0 t1 t2 : Tensor α) (b c z y w : ℕ),
      (c < m.embed_dims_0 →
        catCh m.embed_dims_0 m.embed_dims_1 t0 t1 t2 b c z y w = t0 b c z y w) ∧
      (m.embed_dims_0 ≤ c → c < m.embed_dims_0 + m.embed_dims_1 →
        catCh m.embed_dims_0 m.embed_dims_1 t0 t1 t2 b c z y w =
          t1 b (c - m.embed_dims_0) z y w) ∧
      (m.embed_dims_0 + m.embed_dims_1 ≤ c → c < m.embed_dims →
        catCh m.embed_dims_0 m.embed_dims_1 t0 t1 t2 b c z y w =
          t2 b (c - (m.embed_dims_0 + m.embed_dims_1)) z y w)) := by
  have hstart : m.embed_dims - m.embed_dims_2 = m.embed_dims_0 + m.embed_dims_1 := by
    omega
  refine ⟨hstart, ?_, ?_⟩
  · unfold MultiOrderDWConv.forward specMultiOrderForward
    rw [hstart]
  · intro t0 t1 t2 b c z y w
    refine ⟨fun hc => ?_, fun hc1 hc2 => ?_, fun hc1 hc2 => ?_⟩
    · unfold catCh
      rw [if_pos hc]
    · unfold catCh
      rw [if_neg (by omega), if_pos hc2]
    · unfold catCh
      rw [if_neg (by omega), if_neg (by omega)]

/-- C5 counterexample: `build_norm_layer('LN2d', 4)` returns the custom
`LayerNorm` in its default channels-last mode, not in channel-first mode as
the claim states. -/
theorem C5_counterexample :
    lnModeOf (build_norm_layer "LN2d" 4) = some DataFormat.channelsLast ∧
    some DataFormat.channelsLast ≠ some DataFormat.channelsFirst :=
  ⟨rfl, by decide⟩

/-- C5 (amended): `build_norm_layer` with selector `LN2d` returns the custom
`LayerNorm` with `eps = 1e-6` in its default channels-last mode (the
constructor's `data_format` keyword is not overridden); the layer's
channel-first mode, when selected, computes the mean and variance over the
three spatial dims per (batch, channel) pair, normalizes with `eps` under the
square root, and applies the learned per-channel scale and bias broadcast over
the spatial dims. -/
theorem C5_layernorm_mode (embed_dims : ℕ) :
    build_norm_layer "LN2d" embed_dims =
      .ok (.LN (LayerNorm.make embed_dims (1 / 1000000) .channelsLast)) ∧
    (∀ (ln : LayerNorm ℝ) (D H W : ℕ) (t : Tensor ℝ),
      ln.data_format = .channelsFirst →
      ∀ b c z y x,
        ln.forward D H W t b c z y x =
          ln.weight c * ((t b c z y x - spatialMean D H W t b c) /
            Real.sqrt (spatialMean D H W
              (fun b2 c2 z2 y2 x2 =>
                (t b2 c2 z2 y2 x2 - spatialMean D H W t b2 c2) ^ 2) b c + ln.eps)) +
          ln.bias c) := by
  constructor
  · rfl
  · intro ln D H W t hdf b c z y x
    obtain ⟨wgt, bs, eps, df, ns⟩ := ln
    have hdf2 : df = .channelsFirst := hdf
    subst hdf2
    rfl

/-- C5 witness: a channel-first `LayerNorm` over ℝ evaluated on the zero
tensor. -/
theorem C5_layernorm_mode_witness :
    ((LayerNorm.make 4 (1 / 2 : ℝ) DataFormat.channelsFirst).data_format =
      DataFormat.channelsFirst) ∧
    (build_norm_layer "LN2d" 4 =
      .ok (.LN (LayerNorm.make 4 (1 / 1000000) .channelsLast)) ∧
      (LayerNorm.make 4 (1 / 2 : ℝ) .channelsFirst).forward 1 1 1 zeroT 0 0 0 0 0 =
        (LayerNorm.make 4 (1 / 2 : ℝ) .channelsFirst).weight 0 *
          ((zeroT 0 0 0 0 0 - spatialMean 1 1 1 zeroT 0 0) /
            Real.sqrt (spatialMean 1 1 1
              (fun b2 c2 z2 y2 x2 =>
                (zeroT b2 c2 z2 y2 x2 - spatialMean 1 1 1 zeroT b2 c2) ^ 2) 0 0 +
              (LayerNorm.make 4 (1 / 2 : ℝ) .channelsFirst).eps)) +
          (LayerNorm.make 4 (1 / 2 : ℝ) .channelsFirst).bias 0) :=
  ⟨rfl,
   (C5_layernorm_mode 4).1,
   (C5_layernorm_mode 4).2 (LayerNorm.make 4 (1 / 2) .channelsFirst) 1 1 1 zeroT
     rfl 0 0 0 0 0⟩

/-- C6 counterexample: with the source-default `attn_act_type = 'SiLU'`, the
forced-fp32 path and the default path differ even with all casts exact: at a
concrete 3-channel module the forced path outputs `3 * silu(silu 1)^2` where
the default path outputs `3 * silu(1)^2`, because `forward` hands already
activated tensors to `forward_gating`, which activates them again. -/
theorem C6_counterexample :
    (cexMOGA true).forward 1 1 1 zeroT 0 0 0 0 0 ≠
      (cexMOGA false).forward 1 1 1 zeroT 0 0 0 0 0 := by
  rw [cexMOGA_eval true, cexMOGA_eval false]
  simp only [if_true, if_false]
  have h1 : (0 : ℝ) < silu 1 := silu_pos one_pos
  have h2 : silu (silu 1) < silu 1 := silu_lt_self h1
  have h3 : (0 : ℝ) < silu (silu 1) := silu_pos h1
  have h4 : silu (silu 1) * silu (silu 1) < silu 1 * silu 1 :=
    mul_self_lt_mul_self (le_of_lt h3) h2
  exact ne_of_lt (mul_lt_mul_of_pos_left h4 (by norm_num))

/-- C6 (amended): in the forced-fp32 mode the output added to the shortcut is
`proj_2(act_gate(act_gate(gate(x))) * act_gate(act_gate(value(x))))` — the
gate/value activations are applied twice per branch, not once; with precision
modelled as exact, the forced path coincides with the default path exactly
when `act_gate` is idempotent (e.g. ReLU or the identity), and otherwise the
two paths compute different functions. -/
theorem C6_gating_paths (m : MultiOrderGatedAggregation) (D H W : ℕ)
    (x : Tensor ℝ) :
    (m.attn_force_fp32 = true → m.forward D H W x = doubleGatedOut m D H W x) ∧
    ((∀ t : ℝ, applyAct m.act_gate (applyAct m.act_gate t) = applyAct m.act_gate t) →
      MultiOrderGatedAggregation.forward
          { m with attn_force_fp32 := true } D H W x =
        MultiOrderGatedAggregation.forward
          { m with attn_force_fp32 := false } D H W x) := by
  obtain ⟨ed, f, p1, g, v, p2, av, ag, sg⟩ := m
  constructor
  · intro hf
    have hf2 : f = true := hf
    subst hf2
    unfold MultiOrderGatedAggregation.forward
      MultiOrderGatedAggregation.forward_gating doubleGatedOut
    norm_num
  · intro hid
    have hpt : ∀ t : Tensor ℝ,
        actPointwise ag (actPointwise ag t) = actPointwise ag t := by
      intro t
      funext b c z y w
      exact hid _
    unfold MultiOrderGatedAggregation.forward
      MultiOrderGatedAggregation.forward_gating
      MultiOrderGatedAggregation.feat_decompose
    norm_num [hpt]

/-- C6 witness: an instance with identity activations (idempotent), for which
both conjuncts apply. -/
theorem C6_gating_paths_witness :
    (witMOGA.attn_force_fp32 = true ∧
      (∀ t : ℝ, applyAct witMOGA.act_gate (applyAct witMOGA.act_gate t) =
        applyAct witMOGA.act_gate t)) ∧
    (witMOGA.forward 1 1 1 zeroT = doubleGatedOut witMOGA 1 1 1 zeroT ∧
      MultiOrderGatedAggregation.forward
          { witMOGA with attn_force_fp32 := true } 1 1 1 zeroT =
        MultiOrderGatedAggregation.forward
          { witMOGA with attn_force_fp32 := false } 1 1 1 zeroT) :=
  ⟨⟨rfl, fun _ => rfl⟩,
   (C6_gating_paths witMOGA 1 1 1 zeroT).1 rfl,
   (C6_gating_paths witMOGA 1 1 1 zeroT).2 (fun _ => rfl)⟩

/-- C4 witness: 3 channels split 1 + 1 + 1 over ℚ. -/
theorem C4_multi_order_forward_steps_witness :
    (witMODW.embed_dims_0 + witMODW.embed_dims_1 + witMODW.embed_dims_2 =
      witMODW.embed_dims) ∧
    (witMODW.embed_dims - witMODW.embed_dims_2 =
      witMODW.embed_dims_0 + witMODW.embed_dims_1 ∧
    witMODW.forward 1 1 1 (constT 1) = specMultiOrderForward witMODW 1 1 1 (constT 1)) :=
  ⟨rfl,
   (C4_multi_order_forward_steps witMODW 1 1 1 rfl (constT 1)).1,
   (C4_multi_order_forward_steps witMODW 1 1 1 rfl (constT 1)).2.1⟩

end Moga
